import Mathlib

/-!
Verification of the tally_connect master-dependency workflow client scripts.

The repository drives a Master Dependency Resolution and Approval Workflow:
Sales Order / Sales Invoice forms check which Tally masters are missing,
create `Tally Master Creation Request` records for the missing ones, and the
request form drives each record through an approve / reject / retry
lifecycle.

This file gives a shallow embedding of the client scripts found under
`src/` (pure functions from the incoming server message and form state to
the list of UI effects produced), together with models of the server-side
lifecycle components that the scripts call but whose code is not part of
this repository (those models are marked `Modelled from the spec:` in their
doc comments).

JavaScript conventions are embedded as follows: a possibly-absent string
field is `Option String`; JavaScript truthiness of such a field is
`jsTruthy` (absent and `""` are falsy); `a || b` on strings is `jsOr`;
a literal brace inside an HTML string is written with the `\x7b` / `\x7d`
escapes.
-/

namespace TallyConnect

/-- Truthiness of a possibly-absent JavaScript string value: `undefined`,
`null` and the empty string are falsy. -/
def jsTruthy : Option String → Bool
  | none => false
  | some s => s ≠ ""

/-- JavaScript `v || d` for a possibly-absent string `v`: yields `d` when
`v` is absent or falsy (empty). -/
def jsOr (v : Option String) (d : String) : String :=
  match v with
  | none => d
  | some s => if s = "" then d else s

/-- One entry of a missing-masters list as returned by
`check_dependencies_and_show_missing` and consumed by
`show_missing_masters_dialog` (fields `type`, `display_name`, `parent`,
`priority`). -/
structure MissingMaster where
  type : String
  display_name : String
  parent : String
  priority : String
deriving DecidableEq, Repr

/-- The `r.message` payload of a dependency-check server response:
`error` / `error_details` when Tally could not be reached, otherwise
`has_missing` and the list `missing_masters`. -/
structure CheckMessage where
  error : Option String
  error_details : Option String
  has_missing : Bool
  missing_masters : List MissingMaster
deriving DecidableEq, Repr

/-- User-visible UI effects produced by the client-script callbacks:
`frappe.show_alert`, `frappe.msgprint`, opening the missing-masters
dialog, and the console-only data comparison. -/
inductive UIAction where
  | showAlert (message : String) (indicator : String)
  | msgprint (title : String) (indicator : String) (message : String)
  | showMissingDialog (missing : List MissingMaster)
  | showComparison (oldData : String) (newData : String)
deriving DecidableEq, Repr

/-- Body of the `Tally Connection Error` msgprint built by the newer
`check_tally_dependencies` (src/unnamed/part_000, lines 263-283): it
interpolates `r.message.error` and `r.message.error_details || ''` into a
fixed HTML checklist. -/
def connectionErrorHtml (err : String) (details : String) : String :=
  "<div style=\"margin-bottom: 10px;\"><strong>" ++ err ++ "</strong></div>" ++
  "<div style=\"color: #666; font-size: 13px;\">" ++ details ++ "</div>" ++
  "<hr style=\"margin: 15px 0;\">" ++
  "<div style=\"font-size: 12px;\"><strong>Please check:</strong><ul>" ++
  "<li>Tally is running</li><li>Port 9000 is open</li>" ++
  "<li>Correct company is loaded</li></ul></div>"

/-- Callback of `check_tally_dependencies` in src/unnamed/part_000
(lines 258-295, the active rewrite of sales_order.js): first checks
`r.message.error`; when truthy it shows the `Tally Connection Error`
msgprint and returns, otherwise it branches on `has_missing` between the
missing-masters dialog and the all-dependencies-exist success alert. -/
def check_tally_dependencies_callback (msg : CheckMessage) : List UIAction :=
  if jsTruthy msg.error then
    [.msgprint "Tally Connection Error" "red"
      (connectionErrorHtml (msg.error.getD "") (jsOr msg.error_details ""))]
  else if msg.has_missing then
    [.showMissingDialog msg.missing_masters]
  else
    [.showAlert "✅ All dependencies exist in Tally" "green"]

/-- Callback of `check_tally_dependencies` in
src/tally_connect/tally_integration/client_scripts/sales_order.js
(lines 39-67): it never reads `r.message.error`; it branches only on
`r.message.has_missing`, treating every response without missing masters
as the success case. -/
def check_tally_dependencies_callback_old (msg : CheckMessage) : List UIAction :=
  if msg.has_missing then
    [.showMissingDialog msg.missing_masters]
  else
    [.showAlert "All dependencies exist in Tally ✓" "green"]

/-- Status values of a `Tally Master Creation Request`. The form field
`frm.doc.status` holds the corresponding display string (for example
`"Pending Approval"`); `Status.str` gives that mapping. -/
inductive Status where
  | pendingApproval
  | approved
  | inProgress
  | completed
  | rejected
  | failed
deriving DecidableEq, Repr

/-- Display string stored in the `status` field of the doctype. -/
def Status.str : Status → String
  | .pendingApproval => "Pending Approval"
  | .approved => "Approved"
  | .inProgress => "In Progress"
  | .completed => "Completed"
  | .rejected => "Rejected"
  | .failed => "Failed"

/-- One record of the append-only `notification_history` sequence:
`\x7bevent, timestamp, recipient, recipient_name\x7d`. -/
structure NotifEvent where
  event : String
  timestamp : String
  recipient : String
  recipient_name : String
deriving DecidableEq, Repr

/-- Context describing the notification being appended by a lifecycle
transition (when it happened and who is notified). -/
structure NotifCtx where
  timestamp : String
  recipient : String
  recipient_name : String
deriving DecidableEq, Repr

/-- Notification record appended for lifecycle event `event`. -/
def mkEvent (ctx : NotifCtx) (event : String) : NotifEvent :=
  { event := event
    timestamp := ctx.timestamp
    recipient := ctx.recipient
    recipient_name := ctx.recipient_name }

/-- A `Tally Master Creation Request` document: the fields of the doctype
read and written by the client script and the lifecycle. `erpnext_data`
is the JSON `source_snapshot` captured at creation time;
`notification_history` is kept in parsed form (the form stores it as a
JSON string and parses it before every use). -/
structure Request where
  name : String
  company : String
  master_type : String
  master_name : String
  parent_group : String
  status : Status
  priority : String
  erpnext_doctype : Option String
  erpnext_document : Option String
  linked_transaction : Option String
  linked_transaction_doctype : Option String
  sync_log : Option String
  erpnext_data : Option String
  notification_history : List NotifEvent
  approver_notes : Option String
  rejection_reason : Option String
  modified_name : Option String
  modified_parent : Option String
deriving DecidableEq, Repr

/-- Custom buttons the request form can offer. -/
inductive FormButton where
  | approve
  | reject
  | retry
  | viewSourceDocument
  | viewLinkedTransaction
  | viewSyncLog
  | refreshErpnextData
deriving DecidableEq, Repr

/-- Buttons added by the `refresh` handler of
tally_master_creation_request.js (lines 13-53): Approve and Reject only
when `status === "Pending Approval"` and the user has the `Tally Admin`
role; Retry only when `status === "Failed"`; the view buttons when their
reference fields are set; Refresh ERPNext Data always. -/
def refresh_buttons (doc : Request) (hasRoleTallyAdmin : Bool) : List FormButton :=
  (if doc.status = .pendingApproval ∧ hasRoleTallyAdmin then
    [.approve, .reject] else []) ++
  (if doc.status = .failed then [.retry] else []) ++
  (if jsTruthy doc.erpnext_doctype ∧ jsTruthy doc.erpnext_document then
    [.viewSourceDocument] else []) ++
  (if jsTruthy doc.linked_transaction ∧ jsTruthy doc.linked_transaction_doctype then
    [.viewLinkedTransaction] else []) ++
  (if jsTruthy doc.sync_log then [.viewSyncLog] else []) ++
  [.refreshErpnextData]

/-- One input field of a frappe dialog, as declared in the `fields` array:
its `fieldtype`, `fieldname` and whether it is marked required
(`reqd: 1`). -/
structure DialogField where
  fieldtype : String
  fieldname : String
  reqd : Bool
deriving DecidableEq, Repr

/-- Input fields of the approval dialog (`show_approval_dialog`,
lines 103-125 of tally_master_creation_request.js); none is required. -/
def approval_dialog_fields : List DialogField :=
  [ { fieldtype := "Small Text", fieldname := "approver_notes", reqd := false }
  , { fieldtype := "Data", fieldname := "modified_name", reqd := false }
  , { fieldtype := "Data", fieldname := "modified_parent", reqd := false } ]

/-- Input fields of the rejection dialog (`show_rejection_dialog`,
lines 170-176 of tally_master_creation_request.js): the single
`rejection_reason` field carries `reqd: 1`, so the dialog refuses to run
its primary action while the reason is empty. -/
def rejection_dialog_fields : List DialogField :=
  [ { fieldtype := "Small Text", fieldname := "rejection_reason", reqd := true } ]

/-- Arguments sent to the server method `approve_request` by the approval
dialog primary action (lines 131-136): the override arguments
`modified_name` / `modified_parent` are sent as `null` unless the dialog
value differs (`!==`) from the original `master_name` / `parent_group`. -/
structure ApproveArgs where
  request_name : String
  approver_notes : Option String
  modified_name : Option String
  modified_parent : Option String
deriving DecidableEq, Repr

/-- The argument record built by `show_approval_dialog`: `values` are the
dialog field values at the moment Approve is clicked. -/
def approval_dialog_args (doc : Request) (values_approver_notes : Option String)
    (values_modified_name : String) (values_modified_parent : String) : ApproveArgs :=
  { request_name := doc.name
    approver_notes := values_approver_notes
    modified_name :=
      if values_modified_name ≠ doc.master_name then some values_modified_name else none
    modified_parent :=
      if values_modified_parent ≠ doc.parent_group then some values_modified_parent else none }

/-- The `master_name` field-change handler of
tally_master_creation_request.js (lines 75-84): when the name is set and
longer than 100 characters it shows the advisory `Name Too Long`
msgprint; it mutates nothing. -/
def master_name_changed (doc : Request) : List UIAction :=
  if doc.master_name ≠ "" ∧ doc.master_name.length > 100 then
    [.msgprint "Name Too Long" "orange"
      "Master name exceeds 100 characters (Tally limit). Please shorten it."]
  else []

/-- The `r.message` payload returned by the server method
`get_request_details`, as read by `refresh_erpnext_data`. -/
structure DetailsMessage where
  current_erpnext_data : Option String
deriving DecidableEq, Repr

/-- Callback of `refresh_erpnext_data` in tally_master_creation_request.js
(lines 226-255). `norm` stands for `JSON.stringify ∘ JSON.parse`, the
normalisation the script applies to both JSON blobs before comparing them
(the script compares `JSON.stringify(JSON.parse(x))` strings). The result
is the form document after the call together with the UI effects: on a
difference it only shows the `Data Changed` warning and the comparison;
it never writes `erpnext_data` or any other field. -/
def refresh_erpnext_data (norm : String → String) (doc : Request)
    (resp : Option DetailsMessage) : Request × List UIAction :=
  match resp with
  | none => (doc, [])
  | some m =>
    let old_data := norm (jsOr doc.erpnext_data "\x7b\x7d")
    let new_data := norm (jsOr m.current_erpnext_data "\x7b\x7d")
    if old_data ≠ new_data then
      (doc, [.msgprint "Data Changed" "orange"
              "ERPNext data has changed since this request was created. Review changes before approving.",
             .showComparison old_data new_data])
    else
      (doc, [.showAlert "Data is up to date" "green"])

/-- Icon chosen by `render_notification_timeline` for an event name
(lines 284-287 of tally_master_creation_request.js). -/
def entry_icon (event : String) : String :=
  if event = "created" then "📧"
  else if event = "approved" then "✅"
  else if event = "rejected" then "❌"
  else if event = "completed" then "🎉"
  else "📬"

/-- HTML block appended to the timeline for one history entry
(lines 289-299). `strToUser` stands for `frappe.datetime.str_to_user`,
the host formatting of the stored timestamp. -/
def entry_html (strToUser : String → String) (e : NotifEvent) : String :=
  "<div style=\"margin-bottom: 10px; padding: 10px; background: #f8f9fa; border-radius: 4px;\">" ++
  "<div style=\"display: flex; justify-content: space-between;\">" ++
  "<span><strong>" ++ entry_icon e.event ++ " " ++ e.event.toUpper ++ "</strong></span>" ++
  "<span style=\"color: #6c757d; font-size: 0.9em;\">" ++ strToUser e.timestamp ++ "</span>" ++
  "</div><div style=\"margin-top: 5px; color: #495057;\">" ++
  "Sent to: <strong>" ++ e.recipient_name ++ "</strong> (" ++ e.recipient ++ ")" ++
  "</div></div>"

/-- Opening HTML of the timeline container (line 281). -/
def timeline_header : String :=
  "<div class=\"frappe-control\"><label>Notification Timeline</label>" ++
  "<div style=\"border: 1px solid #d1d8dd; border-radius: 4px; padding: 15px; max-height: 300px; overflow-y: auto;\">"

/-- Closing HTML of the timeline container (line 302). -/
def timeline_footer : String := "</div></div>"

/-- `render_notification_timeline` (lines 276-305): parses the stored
history (given here already parsed), returns without rendering when it is
empty, and otherwise accumulates the header and one block per entry, in
stored order, via `html +=` (a left fold), then closes the container. -/
def render_notification_timeline (strToUser : String → String)
    (history : List NotifEvent) : Option String :=
  if history.length = 0 then none
  else
    some ((history.foldl (fun acc e => acc ++ entry_html strToUser e) timeline_header)
      ++ timeline_footer)

/-- The `r.message` payload of a `create_requests_for_missing_masters`
server response: `success`, the list of created request names, and a
failure `message`. A response whose `success` field is absent or falsy is
embedded with `success := false`. -/
structure CreateMessage where
  success : Bool
  requests_created : List String
  message : Option String
deriving DecidableEq, Repr

/-- Body of the `Requests Created` msgprint (both call sites show the
count of created requests and a link to the request list). -/
def requestsCreatedHtml (count : Nat) : String :=
  "<p>Created " ++ toString count ++ " Tally Master Creation Request(s).</p>" ++
  "<p>These will be reviewed and approved by the Tally administrator.</p>" ++
  "<p><a href=\"/app/tally-master-creation-request\">View Requests</a></p>"

/-- Body of the `Error Creating Requests` msgprint built by
`create_approval_requests` in src/unnamed/part_000 (lines 406-417). -/
def errorCreatingHtml (errorMsg : String) : String :=
  "<p><strong>Failed to create some requests:</strong></p>" ++
  "<p>" ++ errorMsg ++ "</p><hr>" ++
  "<p><a href=\"/app/error-log\" target=\"_blank\">View Error Log</a></p>"

/-- Callback of `create_master_requests` in
src/tally_connect/tally_integration/client_scripts/sales_order.js
(lines 137-157). Input: the optional `r.message` and whether the
missing-masters dialog is open; output: dialog-open state afterwards and
the UI effects. The body is a single `if (r.message.success)` with no
else branch, so a non-success message produces no effect and the dialog
stays open; an absent message makes `r.message.success` throw, which also
produces no effect and leaves the dialog open. -/
def create_master_requests_callback (msg : Option CreateMessage)
    (dialogOpen : Bool) : Bool × List UIAction :=
  match msg with
  | none => (dialogOpen, [])
  | some m =>
    if m.success then
      (false,
        [.showAlert (toString m.requests_created.length ++ " request(s) created successfully")
          "green",
         .msgprint "Requests Created" "blue" (requestsCreatedHtml m.requests_created.length)])
    else
      (dialogOpen, [])

/-- Callback of `create_approval_requests` in src/unnamed/part_000
(lines 378-419): `if (r.message && r.message.success)` shows the success
alert and msgprint; the else branch hides the dialog and shows the
`Error Creating Requests` msgprint with `r.message ? r.message.message :
'Unknown error'` interpolated (an absent `message` property of a present
payload prints as `undefined`). -/
def create_approval_requests_callback (msg : Option CreateMessage)
    (_dialogOpen : Bool) : Bool × List UIAction :=
  match msg with
  | some m =>
    if m.success then
      (false,
        [.showAlert (toString m.requests_created.length ++ " request(s) created successfully")
          "green",
         .msgprint "Requests Created" "blue" (requestsCreatedHtml m.requests_created.length)])
    else
      (false,
        [.msgprint "Error Creating Requests" "red"
          (errorCreatingHtml (m.message.getD "undefined"))])
  | none =>
    (false,
      [.msgprint "Error Creating Requests" "red" (errorCreatingHtml "Unknown error")])

/-- The three operator-driven lifecycle transitions. -/
inductive Transition where
  | approve
  | reject
  | retry
deriving DecidableEq, Repr

/-- The state a successful invocation of each transition puts the request
in: approve yields `Approved`, reject yields `Rejected`, retry yields
`InProgress`. -/
def resultState : Transition → Status
  | .approve => .approved
  | .reject => .rejected
  | .retry => .inProgress

/-- Whether the current status permits initiating a transition:
approve and reject only from `Pending Approval`, retry only from
`Failed`. -/
def permits : Status → Transition → Bool
  | .pendingApproval, .approve => true
  | .pendingApproval, .reject => true
  | .failed, .retry => true
  | _, _ => false

/-- Errors of the lifecycle and validation layer:
`invalidStateTransition` identifies the current state and the attempted
transition; `validationError` reports malformed input. An error result
carries no updated request, so a failing call mutates nothing. -/
inductive LifecycleError where
  | invalidStateTransition (current : Status) (attempted : Transition)
  | validationError (message : String)
deriving DecidableEq, Repr

/-- Modelled from the spec: the server method `approve_request`
(RequestLifecycle.approve, spec section 4.2) is not part of this
repository; only its caller `show_approval_dialog` is. Valid only from
`PendingApproval`; re-invocation on a request already `Approved` is a
no-op success (idempotency rule); any other state fails with
`InvalidStateTransition`. On success it records the approver notes,
records each override only when it differs from the original field, sets
status to `Approved` and appends one `approved` notification event. -/
def approve (req : Request) (ctx : NotifCtx) (approverNotes : Option String)
    (modifiedName modifiedParent : Option String) : Except LifecycleError Request :=
  if req.status = resultState .approve then .ok req
  else if req.status ≠ .pendingApproval then
    .error (.invalidStateTransition req.status .approve)
  else
    .ok { req with
      status := .approved
      approver_notes := approverNotes
      modified_name :=
        match modifiedName with
        | some n => if n ≠ req.master_name then some n else none
        | none => none
      modified_parent :=
        match modifiedParent with
        | some p => if p ≠ req.parent_group then some p else none
        | none => none
      notification_history := req.notification_history ++ [mkEvent ctx "approved"] }

/-- Modelled from the spec: the server method `reject_request`
(RequestLifecycle.reject, spec section 4.2) is not part of this
repository; only its caller `show_rejection_dialog` is. Valid only from
`PendingApproval`; re-invocation on a request already `Rejected` is a
no-op success; the reason is mandatory and non-empty, otherwise the call
fails with `ValidationError` and changes nothing. On success it sets
status to `Rejected`, records the reason and appends one `rejected`
notification event. -/
def reject (req : Request) (ctx : NotifCtx) (reason : String) :
    Except LifecycleError Request :=
  if req.status = resultState .reject then .ok req
  else if req.status ≠ .pendingApproval then
    .error (.invalidStateTransition req.status .reject)
  else if reason = "" then
    .error (.validationError "Rejection reason is mandatory")
  else
    .ok { req with
      status := .rejected
      rejection_reason := some reason
      notification_history := req.notification_history ++ [mkEvent ctx "rejected"] }

/-- Modelled from the spec: the server method `retry_master_creation`
(RequestLifecycle.retry, spec section 4.2) is not part of this
repository; only its caller `retry_creation` is. Valid only from
`Failed`; re-invocation on a request already `InProgress` is a no-op
success; any other state fails with `InvalidStateTransition`. It does not
re-run dependency resolution: it only moves the request back to
`InProgress` for the same creation payload. -/
def retryTransition (req : Request) : Except LifecycleError Request :=
  if req.status = resultState .retry then .ok req
  else if req.status ≠ .failed then
    .error (.invalidStateTransition req.status .retry)
  else
    .ok { req with status := .inProgress }

/-- Uniform view of the three transitions, used to state properties that
quantify over the attempted transition. -/
def runTransition (t : Transition) (req : Request) (ctx : NotifCtx)
    (approverNotes modifiedName modifiedParent : Option String) (reason : String) :
    Except LifecycleError Request :=
  match t with
  | .approve => approve req ctx approverNotes modifiedName modifiedParent
  | .reject => reject req ctx reason
  | .retry => retryTransition req

/-- Failure modes of a call to the target accounting system
(spec section 7). -/
inductive SyncError where
  | unreachable (detail : String)
  | rejectedPayload (detail : String)
  | duplicateConflict (detail : String)
  | timeout
deriving DecidableEq, Repr

/-- Target-system creation payload for a master. -/
structure MasterPayload where
  master_type : String
  name : String
  parent : String
deriving DecidableEq, Repr

/-- Modelled from the spec: SyncGateway payload construction (spec
section 4.3; the SyncGateway code is not part of this repository). The
payload is built from the request with overrides applied:
`modified_name` / `modified_parent` take precedence when present, and
their absence means the original `master_name` / `parent_group` is used
unchanged. -/
def buildPayload (req : Request) : MasterPayload :=
  { master_type := req.master_type
    name := req.modified_name.getD req.master_name
    parent := req.modified_parent.getD req.parent_group }

/-- Modelled from the spec: SyncGateway.createMaster (spec section 4.3;
the SyncGateway code is not part of this repository). `outcome` is the
response of the remote target system, an input of the model. Structural
constraints — here the 100-character Tally name limit checked by the
`master_name` client handler — are validated before the call: a violation
fails fast with `ValidationError`, issuing no call to the target system
and producing no updated request, so the request stays in its current
state. Otherwise the request enters `InProgress` and, depending on the
remote outcome, ends `Completed` with `sync_log` set and a `completed`
event appended, or `Failed` with the failure detail in `sync_log` and a
`failed` event appended. The second component of the result lists the
calls issued to the target system. -/
def createMaster (ctx : NotifCtx) (req : Request) (outcome : Except SyncError String) :
    Except LifecycleError (Request × List MasterPayload) :=
  let payload := buildPayload req
  if payload.name.length > 100 then
    .error (.validationError "Master name exceeds 100 characters (Tally limit)")
  else
    match outcome with
    | .ok logRef =>
      .ok ({ req with
              status := .completed
              sync_log := some logRef
              notification_history := req.notification_history ++ [mkEvent ctx "completed"] },
           [payload])
    | .error e =>
      .ok ({ req with
              status := .failed
              sync_log := some (toString (repr e))
              notification_history := req.notification_history ++ [mkEvent ctx "failed"] },
           [payload])

/-- A master reference extracted from a transactional document. -/
structure MasterRef where
  master_type : String
  name : String
deriving DecidableEq, Repr

/-- Result of dependency resolution for one document. -/
structure ResolveResult where
  requiredMasters : List MasterRef
  missing : List MasterRef
deriving DecidableEq, Repr

/-- Modelled from the spec: DependencyResolver.resolve (spec section 4.1;
the resolver code is not part of this repository, only the client
scripts that call it). `extractRefs` is the pure extraction of every
master reference from document content; `catalogExists` is
`MasterCatalog.exists`. The missing set is the subset of the required
references that fail the catalog lookup. -/
def resolve (extractRefs : α → List MasterRef) (catalogExists : MasterRef → Bool)
    (document : α) : ResolveResult :=
  let required := extractRefs document
  { requiredMasters := required
    missing := required.filter (fun m => ¬ catalogExists m) }

/-- Concatenation of one rendered block per history entry, in stored
order: the recursive shape makes explicit that every entry contributes
exactly one block, none is dropped and none is reordered. -/
def concat_blocks (f : NotifEvent → String) : List NotifEvent → String
  | [] => ""
  | e :: rest => f e ++ concat_blocks f rest

/-- A concrete notification context used by the witnesses. -/
def exampleCtx : NotifCtx :=
  { timestamp := "2025-06-01 10:00:00"
    recipient := "admin@example.com"
    recipient_name := "Tally Admin" }

/-- A concrete pending request used by the witnesses, matching the
scenario of spec section 8 (ledger `Acme Corp` under `Sundry Debtors`). -/
def exampleRequest : Request :=
  { name := "TMCR-0001"
    company := "Acme Industries"
    master_type := "Ledger"
    master_name := "Acme Corp"
    parent_group := "Sundry Debtors"
    status := .pendingApproval
    priority := "Normal"
    erpnext_doctype := some "Sales Order"
    erpnext_document := some "SO-0001"
    linked_transaction := none
    linked_transaction_doctype := none
    sync_log := none
    erpnext_data := some "\x7b\"customer\": \"Acme Corp\"\x7d"
    notification_history := [mkEvent exampleCtx "created"]
    approver_notes := none
    rejection_reason := none
    modified_name := none
    modified_parent := none }

/-- A 101-character master name, one past the Tally limit. -/
def exampleLongName : String := String.mk (List.replicate 101 'A')

/-- Claim C1: every dependency-check response carrying an error is
surfaced to the caller distinctly from the no-missing-masters outcome,
and the all-dependencies-exist success path is never taken on it. The
handler in sales_order.js violates this: shown here at a concrete error
response, it takes the success-alert path, while the rewritten handler in
src/unnamed/part_000 surfaces the same response as the
`Tally Connection Error` msgprint. -/
theorem C1_sales_order_handler_swallows_catalog_error :
    check_tally_dependencies_callback_old
      { error := some "Could not connect to Tally"
        error_details := some "Connection refused on port 9000"
        has_missing := false
        missing_masters := [] } =
      [.showAlert "All dependencies exist in Tally ✓" "green"] ∧
    check_tally_dependencies_callback
      { error := some "Could not connect to Tally"
        error_details := some "Connection refused on port 9000"
        has_missing := false
        missing_masters := [] } =
      [.msgprint "Tally Connection Error" "red"
        (connectionErrorHtml "Could not connect to Tally" "Connection refused on port 9000")] := by
  constructor <;> rfl

/-- Claim C8: for every document, `resolve` yields a missing set that is
a subset of the required masters, and the missing set is empty exactly
when every required master passes the catalog existence check. -/
theorem C8_resolve_missing_subset_and_empty_iff :
    ∀ (α : Type) (extractRefs : α → List MasterRef) (catalogExists : MasterRef → Bool)
      (d : α),
      ((resolve extractRefs catalogExists d).missing ⊆
        (resolve extractRefs catalogExists d).requiredMasters) ∧
      ((resolve extractRefs catalogExists d).missing = [] ↔
        ∀ m ∈ (resolve extractRefs catalogExists d).requiredMasters,
          catalogExists m = true) := by
  intro α extractRefs catalogExists d
  constructor
  · intro m hm
    exact (List.mem_filter.mp hm).1
  · simp [resolve, List.filter_eq_nil_iff]

/-- Witness for C8 at a concrete document: one missing ledger and one
existing group, the scenario of spec section 8. -/
theorem C8_resolve_witness :
    ((resolve (fun _ : String =>
        [{ master_type := "Ledger", name := "Acme Corp" },
         { master_type := "Group", name := "Customers" }])
      (fun m => m.name = "Customers") "SO-0001").missing ⊆
      (resolve (fun _ : String =>
        [{ master_type := "Ledger", name := "Acme Corp" },
         { master_type := "Group", name := "Customers" }])
      (fun m => m.name = "Customers") "SO-0001").requiredMasters) ∧
    ((resolve (fun _ : String =>
        [{ master_type := "Ledger", name := "Acme Corp" },
         { master_type := "Group", name := "Customers" }])
      (fun m => m.name = "Customers") "SO-0001").missing = [] ↔
      ∀ m ∈ (resolve (fun _ : String =>
        [{ master_type := "Ledger", name := "Acme Corp" },
         { master_type := "Group", name := "Customers" }])
      (fun m => m.name = "Customers") "SO-0001").requiredMasters,
        (m.name = "Customers" : Bool) = true) :=
  C8_resolve_missing_subset_and_empty_iff String
    (fun _ => [{ master_type := "Ledger", name := "Acme Corp" },
               { master_type := "Group", name := "Customers" }])
    (fun m => m.name = "Customers") "SO-0001"

/-- Claim C10: in the `create_master_requests` handler of sales_order.js,
every server response whose `message.success` is not true — including an
absent message — produces no user-visible notification and leaves the
dialog open, whereas the `create_approval_requests` handler of
src/unnamed/part_000 closes the dialog and surfaces the failure message
in an `Error Creating Requests` msgprint. -/
theorem C10_sales_order_drops_create_failure :
    (∀ (dialogOpen : Bool),
      create_master_requests_callback none dialogOpen = (dialogOpen, [])) ∧
    (∀ (m : CreateMessage) (dialogOpen : Bool), m.success = false →
      create_master_requests_callback (some m) dialogOpen = (dialogOpen, [])) ∧
    (∀ (m : CreateMessage), m.success = false →
      create_approval_requests_callback (some m) true =
        (false, [.msgprint "Error Creating Requests" "red"
          (errorCreatingHtml (m.message.getD "undefined"))])) ∧
    (create_approval_requests_callback none true =
      (false, [.msgprint "Error Creating Requests" "red" (errorCreatingHtml "Unknown error")])) := by
  refine ⟨fun _ => rfl, fun m dialogOpen h => ?_, fun m h => ?_, rfl⟩
  · simp [create_master_requests_callback, h]
  · simp [create_approval_requests_callback, h]

/-- Witness for C10 at a concrete failed response. -/
theorem C10_create_failure_witness :
    create_master_requests_callback
      (some { success := false, requests_created := [], message := some "Duplicate entry" })
      true = (true, []) ∧
    create_approval_requests_callback
      (some { success := false, requests_created := [], message := some "Duplicate entry" })
      true =
      (false, [.msgprint "Error Creating Requests" "red" (errorCreatingHtml "Duplicate entry")]) :=
  ⟨C10_sales_order_drops_create_failure.2.1
      { success := false, requests_created := [], message := some "Duplicate entry" } true rfl,
   C10_sales_order_drops_create_failure.2.2.1
      { success := false, requests_created := [], message := some "Duplicate entry" } rfl⟩

/-- Claim C2: each lifecycle transition is offered only when the current
status permits it — the form offers Approve and Reject only on a
`Pending Approval` request and Retry only on a `Failed` request — and a
transition attempted from a state that neither permits it nor already is
its result state (the idempotent no-op case of section 4.2) fails with
`InvalidStateTransition` naming the current state and the attempted
transition, returning no updated request and so mutating nothing. -/
theorem C2_transitions_only_from_permitting_states :
    (∀ (doc : Request) (role : Bool),
      FormButton.approve ∈ refresh_buttons doc role → doc.status = .pendingApproval) ∧
    (∀ (doc : Request) (role : Bool),
      FormButton.reject ∈ refresh_buttons doc role → doc.status = .pendingApproval) ∧
    (∀ (doc : Request) (role : Bool),
      FormButton.retry ∈ refresh_buttons doc role → doc.status = .failed) ∧
    (∀ (t : Transition) (req : Request) (ctx : NotifCtx)
       (notes mn mp : Option String) (reason : String),
      permits req.status t = false → req.status ≠ resultState t →
      runTransition t req ctx notes mn mp reason =
        .error (.invalidStateTransition req.status t)) := by
  refine ⟨fun doc role h => ?_, fun doc role h => ?_, fun doc role h => ?_,
    fun t req ctx notes mn mp reason h1 h2 => ?_⟩
  · simp only [refresh_buttons] at h
    split_ifs at h <;> simp_all
  · simp only [refresh_buttons] at h
    split_ifs at h <;> simp_all
  · simp only [refresh_buttons] at h
    split_ifs at h <;> simp_all
  · cases t <;> cases hs : req.status <;>
      simp_all [runTransition, approve, reject, retryTransition, resultState, permits]

/-- Witness for C2: retry attempted on a `Completed` request fails with
`InvalidStateTransition` identifying the `Completed` state and the retry
transition. -/
theorem C2_retry_on_completed_witness :
    runTransition .retry { exampleRequest with status := .completed } exampleCtx
      none none none "" =
      .error (.invalidStateTransition .completed .retry) :=
  C2_transitions_only_from_permitting_states.2.2.2 .retry
    { exampleRequest with status := .completed } exampleCtx none none none ""
    rfl (by decide)

/-- Claim C3: the rejection reason is mandatory at the interface (the
dialog field carries `reqd`), rejecting a `Pending Approval` request with
an empty reason fails with `ValidationError` and returns no updated
request, and rejecting with a non-empty reason moves exactly that request
from `Pending Approval` to the terminal `Rejected` state, recording the
reason and appending exactly one `rejected` notification event and
changing nothing else. -/
theorem C3_reject_requires_nonempty_reason :
    (∃ f ∈ rejection_dialog_fields, f.fieldname = "rejection_reason" ∧ f.reqd = true) ∧
    (∀ (req : Request) (ctx : NotifCtx), req.status = .pendingApproval →
      reject req ctx "" = .error (.validationError "Rejection reason is mandatory")) ∧
    (∀ (req : Request) (ctx : NotifCtx) (reason : String),
      req.status = .pendingApproval → reason ≠ "" →
      reject req ctx reason = .ok { req with
        status := .rejected
        rejection_reason := some reason
        notification_history := req.notification_history ++ [mkEvent ctx "rejected"] }) := by
  refine ⟨⟨_, List.mem_singleton.mpr rfl, rfl, rfl⟩,
    fun req ctx h => ?_, fun req ctx reason h hr => ?_⟩
  · simp [reject, resultState, h]
  · simp [reject, resultState, h, hr]

/-- Witness for C3: on the concrete pending request, rejection with an
empty reason fails with `ValidationError` and rejection with reason
`budget` transitions to `Rejected` appending one `rejected` event. -/
theorem C3_reject_witness :
    reject exampleRequest exampleCtx "" =
      .error (.validationError "Rejection reason is mandatory") ∧
    reject exampleRequest exampleCtx "budget" =
      .ok { exampleRequest with
        status := .rejected
        rejection_reason := some "budget"
        notification_history := exampleRequest.notification_history ++ [mkEvent exampleCtx "rejected"] } :=
  ⟨C3_reject_requires_nonempty_reason.2.1 exampleRequest exampleCtx rfl,
   C3_reject_requires_nonempty_reason.2.2 exampleRequest exampleCtx "budget" rfl (by decide)⟩

/-- Claim C4: the approval dialog sends an override argument only when
the supplied value differs from the original `master_name` /
`parent_group` (an equal value is sent as null), and an absent override
means the creation payload uses the original value unchanged while a
present override takes precedence. -/
theorem C4_overrides_recorded_only_when_different :
    (∀ (doc : Request) (notes : Option String) (n p : String), n = doc.master_name →
      (approval_dialog_args doc notes n p).modified_name = none) ∧
    (∀ (doc : Request) (notes : Option String) (n p : String), n ≠ doc.master_name →
      (approval_dialog_args doc notes n p).modified_name = some n) ∧
    (∀ (doc : Request) (notes : Option String) (n p : String), p = doc.parent_group →
      (approval_dialog_args doc notes n p).modified_parent = none) ∧
    (∀ (doc : Request) (notes : Option String) (n p : String), p ≠ doc.parent_group →
      (approval_dialog_args doc notes n p).modified_parent = some p) ∧
    (∀ req : Request, req.modified_name = none →
      (buildPayload req).name = req.master_name) ∧
    (∀ req : Request, req.modified_parent = none →
      (buildPayload req).parent = req.parent_group) ∧
    (∀ (req : Request) (n : String), req.modified_name = some n →
      (buildPayload req).name = n) ∧
    (∀ (req : Request) (p : String), req.modified_parent = some p →
      (buildPayload req).parent = p) := by
  refine ⟨fun doc notes n p h => ?_, fun doc notes n p h => ?_,
    fun doc notes n p h => ?_, fun doc notes n p h => ?_,
    fun req h => ?_, fun req h => ?_, fun req n h => ?_, fun req p h => ?_⟩ <;>
    simp [approval_dialog_args, buildPayload, h]

/-- Witness for C4: approving the concrete request with a modified name
`Acme Corporation` and an unchanged parent group sends the name override
only, and the resulting creation payload uses `Acme Corporation` with the
original parent group, matching the scenario of spec section 8. -/
theorem C4_acme_witness :
    (approval_dialog_args exampleRequest none "Acme Corporation" "Sundry Debtors").modified_name =
      some "Acme Corporation" ∧
    (approval_dialog_args exampleRequest none "Acme Corporation" "Sundry Debtors").modified_parent =
      none ∧
    (buildPayload { exampleRequest with modified_name := some "Acme Corporation" }).name =
      "Acme Corporation" ∧
    (buildPayload { exampleRequest with modified_name := some "Acme Corporation" }).parent =
      "Sundry Debtors" :=
  ⟨C4_overrides_recorded_only_when_different.2.1 exampleRequest none
      "Acme Corporation" "Sundry Debtors" (by decide),
   C4_overrides_recorded_only_when_different.2.2.1 exampleRequest none
      "Acme Corporation" "Sundry Debtors" rfl,
   C4_overrides_recorded_only_when_different.2.2.2.2.2.2.1
      { exampleRequest with modified_name := some "Acme Corporation" } "Acme Corporation" rfl,
   C4_overrides_recorded_only_when_different.2.2.2.2.2.1
      { exampleRequest with modified_name := some "Acme Corporation" } rfl⟩

/-- Claim C5: re-invoking approve, reject or retry on a request already
in the state that the transition would produce is a no-op success: the
call returns the request unchanged — no field mutated, no notification
event appended — and in particular approve immediately after a
successful approve returns the approved request unchanged. -/
theorem C5_reinvocation_is_noop_success :
    (∀ (req : Request) (ctx : NotifCtx) (notes mn mp : Option String),
      req.status = resultState .approve → approve req ctx notes mn mp = .ok req) ∧
    (∀ (req : Request) (ctx : NotifCtx) (reason : String),
      req.status = resultState .reject → reject req ctx reason = .ok req) ∧
    (∀ req : Request, req.status = resultState .retry → retryTransition req = .ok req) ∧
    (∀ (req req1 : Request) (ctx : NotifCtx) (notes mn mp : Option String),
      approve req ctx notes mn mp = .ok req1 →
      approve req1 ctx notes mn mp = .ok req1) := by
  refine ⟨fun req ctx notes mn mp h => by simp [approve, h],
    fun req ctx reason h => by simp [reject, h],
    fun req h => by simp [retryTransition, h],
    fun req req1 ctx notes mn mp h => ?_⟩
  by_cases ha : req.status = Status.approved
  · simp [approve, resultState, ha] at h
    subst h
    simp [approve, resultState, ha]
  · by_cases hp : req.status = Status.pendingApproval
    · simp [approve, resultState, ha, hp] at h
      subst h
      simp [approve, resultState]
    · simp [approve, resultState, ha, hp] at h

/-- Witness for C5: the three no-op re-invocations on concrete requests
already in the produced state. -/
theorem C5_noop_witness :
    approve { exampleRequest with status := .approved } exampleCtx none none none =
      .ok { exampleRequest with status := .approved } ∧
    reject { exampleRequest with status := .rejected } exampleCtx "budget" =
      .ok { exampleRequest with status := .rejected } ∧
    retryTransition { exampleRequest with status := .inProgress } =
      .ok { exampleRequest with status := .inProgress } :=
  ⟨C5_reinvocation_is_noop_success.1 { exampleRequest with status := .approved }
      exampleCtx none none none rfl,
   C5_reinvocation_is_noop_success.2.1 { exampleRequest with status := .rejected }
      exampleCtx "budget" rfl,
   C5_reinvocation_is_noop_success.2.2.1 { exampleRequest with status := .inProgress } rfl⟩

/-- Helper: the drift check returns the form document unchanged for
every server response. -/
theorem refresh_erpnext_data_fst (norm : String → String) (doc : Request)
    (resp : Option DetailsMessage) : (refresh_erpnext_data norm doc resp).fst = doc := by
  cases resp with
  | none => rfl
  | some m =>
    simp only [refresh_erpnext_data]
    split <;> rfl

/-- Claim C6: the drift check (`refresh_erpnext_data`) never mutates the
stored snapshot or any other field of the request — on a difference it
only emits the `Data Changed` warning — and the warning alone never
blocks a subsequent approve: after any drift-check outcome, approving a
still-pending request succeeds. -/
theorem C6_drift_check_warns_without_mutating :
    (∀ (norm : String → String) (doc : Request) (resp : Option DetailsMessage),
      (refresh_erpnext_data norm doc resp).fst = doc) ∧
    (∀ (norm : String → String) (doc : Request) (resp : Option DetailsMessage)
       (ctx : NotifCtx) (notes mn mp : Option String),
      doc.status = .pendingApproval →
      (approve (refresh_erpnext_data norm doc resp).fst ctx notes mn mp).isOk = true) := by
  refine ⟨refresh_erpnext_data_fst, fun norm doc resp ctx notes mn mp h => ?_⟩
  rw [refresh_erpnext_data_fst]
  simp [approve, resultState, h, Except.isOk, Except.toBool]

/-- Witness for C6: a drifted response (`Trade Debtors` against the
stored `Sundry Debtors` snapshot) leaves the concrete pending request
unchanged and approval still succeeds. -/
theorem C6_drift_witness :
    (refresh_erpnext_data id exampleRequest
      (some { current_erpnext_data := some "\x7b\"customer\": \"Trade Debtors\"\x7d" })).fst =
      exampleRequest ∧
    (approve (refresh_erpnext_data id exampleRequest
      (some { current_erpnext_data := some "\x7b\"customer\": \"Trade Debtors\"\x7d" })).fst
      exampleCtx none none none).isOk = true :=
  ⟨C6_drift_check_warns_without_mutating.1 id exampleRequest
      (some { current_erpnext_data := some "\x7b\"customer\": \"Trade Debtors\"\x7d" }),
   C6_drift_check_warns_without_mutating.2 id exampleRequest
      (some { current_erpnext_data := some "\x7b\"customer\": \"Trade Debtors\"\x7d" })
      exampleCtx none none none rfl⟩

/-- Claim C7: a master name longer than the 100-character Tally limit is
caught before any sync call: the form warns on the field (`Name Too
Long`), and `createMaster` validates the payload name before calling the
target system — a violation fails fast with `ValidationError`, issues no
call, and returns no updated request, so the request stays in its current
state and no `InProgress` transition is consumed. -/
theorem C7_name_length_validated_before_sync :
    (∀ doc : Request, doc.master_name.length > 100 →
      master_name_changed doc =
        [.msgprint "Name Too Long" "orange"
          "Master name exceeds 100 characters (Tally limit). Please shorten it."]) ∧
    (∀ (ctx : NotifCtx) (req : Request) (outcome : Except SyncError String),
      (buildPayload req).name.length > 100 →
      createMaster ctx req outcome =
        .error (.validationError "Master name exceeds 100 characters (Tally limit)")) := by
  refine ⟨fun doc h => ?_, fun ctx req outcome h => ?_⟩
  · have hne : doc.master_name ≠ "" := by
      intro e
      rw [e] at h
      simp at h
    simp [master_name_changed, hne, h]
  · simp [createMaster, h]

/-- Witness for C7: at a concrete 101-character master name the field
handler warns and `createMaster` fails with `ValidationError` without
issuing a sync call. -/
theorem C7_long_name_witness :
    master_name_changed { exampleRequest with master_name := exampleLongName } =
      [.msgprint "Name Too Long" "orange"
        "Master name exceeds 100 characters (Tally limit). Please shorten it."] ∧
    createMaster exampleCtx { exampleRequest with master_name := exampleLongName }
      (.ok "TSL-0001") =
      .error (.validationError "Master name exceeds 100 characters (Tally limit)") :=
  ⟨C7_name_length_validated_before_sync.1
      { exampleRequest with master_name := exampleLongName } (by decide),
   C7_name_length_validated_before_sync.2 exampleCtx
      { exampleRequest with master_name := exampleLongName } (.ok "TSL-0001") (by decide)⟩

/-- Helper: appending blocks one by one with a left fold, starting from
any prefix, concatenates exactly one block per entry in list order. -/
theorem foldl_append_concat_blocks (f : NotifEvent → String) :
    ∀ (l : List NotifEvent) (acc : String),
      l.foldl (fun a e => a ++ f e) acc = acc ++ concat_blocks f l := by
  intro l
  induction l with
  | nil => intro acc; simp [concat_blocks]
  | cons x xs ih =>
    intro acc
    simp [concat_blocks, ih, String.append_assoc]

/-- Claim C9: rendering the notification history is a deterministic
function of the stored sequence: a non-empty stored history renders as
the container header, then exactly one block per stored entry in stored
order (none deleted, none reordered, none duplicated), then the footer;
the empty history renders nothing. -/
theorem C9_timeline_renders_stored_order :
    (∀ (strToUser : String → String) (history : List NotifEvent),
      history ≠ [] →
      render_notification_timeline strToUser history =
        some (timeline_header ++ concat_blocks (entry_html strToUser) history
          ++ timeline_footer)) ∧
    (∀ strToUser : String → String,
      render_notification_timeline strToUser [] = none) := by
  refine ⟨fun strToUser history h => ?_, fun strToUser => rfl⟩
  simp [render_notification_timeline, h, foldl_append_concat_blocks]

/-- Witness for C9: the concrete two-event history renders to the header,
the `created` block, the `approved` block and the footer, in stored
order. -/
theorem C9_timeline_witness :
    render_notification_timeline id [mkEvent exampleCtx "created", mkEvent exampleCtx "approved"] =
      some (timeline_header ++
        concat_blocks (entry_html id) [mkEvent exampleCtx "created", mkEvent exampleCtx "approved"]
        ++ timeline_footer) :=
  C9_timeline_renders_stored_order.1 id
    [mkEvent exampleCtx "created", mkEvent exampleCtx "approved"] (by decide)

end TallyConnect
